import Mathlib

/-!
Shallow embedding of `src/ppv_law.py` (FGBASTANTE/PPV-LAW): an attenuation-law
fitting script.  `ppv_regress` fits an ordinary least-squares line in log-log
space, computes three upper-bound families (approximate, prediction interval,
tolerance interval) and coverage diagnostics; `cargas_sd` inverts the fitted
bound models to obtain maximum charges over a distance grid.

Floating-point numerics are modelled over `ℝ`.  The scipy quantile routines
(`st.norm.ppf`, `st.t.ppf`, `sp.nctdtrit`) are transcendental special
functions; the embedding abstracts them as an oracle structure `Quantiles`
with scipy's calling conventions, so every algebraic identity proved below
holds for the exact quantile functions as a special case.
-/

namespace PpvLaw

/-- Abstract quantile oracles with scipy calling conventions:
`normPpf p` is `st.norm.ppf(p)` (standard normal quantile),
`tPpf p df` is `st.t.ppf(p, df)` (Student-t quantile),
`nctdtrit df noncentrality p` is `sp.nctdtrit(df, noncentrality, p)`
(noncentral-t quantile). -/
structure Quantiles where
  normPpf : ℝ → ℝ
  tPpf : ℝ → ℝ → ℝ
  nctdtrit : ℝ → ℝ → ℝ → ℝ

/-- scipy location-scale convention: `st.norm.ppf(p, loc, scale)`
equals `loc + scale * Φ⁻¹(p)`. -/
noncomputable def Quantiles.normPpfLS (q : Quantiles) (p loc scale : ℝ) : ℝ :=
  loc + scale * q.normPpf p

/-- The input sample: the `x` and `y` columns of the data frame,
`x = log10(scaled distance)`, `y = log10(ppv)`. -/
structure Sample where
  xs : List ℝ
  ys : List ℝ

/-- `n = len(x)` (line 89 of the source). -/
def Sample.n (s : Sample) : ℕ := s.xs.length

/-- `np.mean` of a list of reals: sum divided by length. -/
noncomputable def npMean (l : List ℝ) : ℝ := l.sum / (l.length : ℝ)

/-- `x_mean = np.mean(x)` (line 99). -/
noncomputable def Sample.x_mean (s : Sample) : ℝ := npMean s.xs

/-- Mean of the `y` column, used by the closed-form least-squares line. -/
noncomputable def Sample.y_mean (s : Sample) : ℝ := npMean s.ys

/-- `ss = np.square(x - x_mean).sum()` (lines 100-101). -/
noncomputable def Sample.ss (s : Sample) : ℝ :=
  (s.xs.map (fun xi => (xi - s.x_mean) ^ 2)).sum

/-- Centered cross moment `Σ (xᵢ - x̄)(yᵢ - ȳ)`, the numerator of the
ordinary least-squares slope. -/
noncomputable def Sample.sxy (s : Sample) : ℝ :=
  ((s.xs.zip s.ys).map (fun p => (p.1 - s.x_mean) * (p.2 - s.y_mean))).sum

/-- `slope` from `np.polyfit(x, y, deg=1)` (line 93), embedded by the
closed-form normal-equations solution of the degree-1 least-squares
problem: `slope = Σ(xᵢ-x̄)(yᵢ-ȳ) / Σ(xᵢ-x̄)²`. -/
noncomputable def Sample.slope (s : Sample) : ℝ := s.sxy / s.ss

/-- `intercept` from `np.polyfit(x, y, deg=1)` (line 93):
`intercept = ȳ - slope·x̄`. -/
noncomputable def Sample.intercept (s : Sample) : ℝ := s.y_mean - s.slope * s.x_mean

/-- `y_predict = intercept + slope * x` (line 94), at one coordinate. -/
noncomputable def y_predict (s : Sample) (x0 : ℝ) : ℝ := s.intercept + s.slope * x0

/-- `np.square(y - y_predict).sum()`, the residual sum of squares
inside line 96. -/
noncomputable def Sample.rss (s : Sample) : ℝ :=
  ((s.xs.zip s.ys).map (fun p => (p.2 - y_predict s p.1) ^ 2)).sum

/-- `mse = np.sqrt(np.square(rss_y).sum() / (n - 2))` (line 96).  The code
performs this division unconditionally, with no guard on `n`. -/
noncomputable def Sample.mse (s : Sample) : ℝ :=
  Real.sqrt (s.rss / ((s.n : ℝ) - 2))

/-- `se_x_aprox = st.norm.ppf(nc, loc=0, scale=mse)` (line 105). -/
noncomputable def se_x_aprox (q : Quantiles) (s : Sample) (nc : ℝ) : ℝ :=
  q.normPpfLS nc 0 s.mse

/-- `se_x = np.sqrt(1 + 1/n + np.square(x - x_mean)/ss) * mse
* st.t.ppf(nc, df=n-2)` (lines 106-109), at one coordinate.  The same
formula is applied to the grid points (lines 110-114). -/
noncomputable def se_x (q : Quantiles) (s : Sample) (nc x0 : ℝ) : ℝ :=
  Real.sqrt (1 + 1 / (s.n : ℝ) + (x0 - s.x_mean) ^ 2 / s.ss) * s.mse *
    q.tPpf nc ((s.n : ℝ) - 2)

/-- `_x_tol = np.sqrt(1/n + np.square(x - x_mean)/ss)` (line 117), at one
coordinate (the leading underscore of the Python name is dropped). -/
noncomputable def x_tol (s : Sample) (x0 : ℝ) : ℝ :=
  Real.sqrt (1 / (s.n : ℝ) + (x0 - s.x_mean) ^ 2 / s.ss)

/-- `zp_d = st.norm.ppf(cobertura) / _x_tol` (line 119). -/
noncomputable def zp_d (q : Quantiles) (s : Sample) (cobertura x0 : ℝ) : ℝ :=
  q.normPpf cobertura / x_tol s x0

/-- `se_x_tol = sp.nctdtrit(n - 2, zp_d, nc) * mse * _x_tol` (line 121). -/
noncomputable def se_x_tol (q : Quantiles) (s : Sample) (nc cobertura x0 : ℝ) : ℝ :=
  q.nctdtrit ((s.n : ℝ) - 2) (zp_d q s cobertura x0) nc * s.mse * x_tol s x0

/-- `y_pred_nc_aprox = y_predict + se_x_aprox` (line 126). -/
noncomputable def y_pred_nc_aprox (q : Quantiles) (s : Sample) (nc x0 : ℝ) : ℝ :=
  y_predict s x0 + se_x_aprox q s nc

/-- `y_pred_nc = y_predict + se_x` (line 127). -/
noncomputable def y_pred_nc (q : Quantiles) (s : Sample) (nc x0 : ℝ) : ℝ :=
  y_predict s x0 + se_x q s nc x0

/-- `y_tol_nc = y_predict + se_x_tol` (line 128). -/
noncomputable def y_tol_nc (q : Quantiles) (s : Sample) (nc cobertura x0 : ℝ) : ℝ :=
  y_predict s x0 + se_x_tol q s nc cobertura x0

/-- `cover_aprox = np.mean(y_pred_nc_aprox > y)` (line 131): the mean of the
elementwise 0/1 comparison over the sample points. -/
noncomputable def cover_aprox (q : Quantiles) (s : Sample) (nc : ℝ) : ℝ :=
  npMean ((s.xs.zip s.ys).map
    (fun p => if y_pred_nc_aprox q s nc p.1 > p.2 then (1 : ℝ) else 0))

/-- `cover_pred = np.mean(y_pred_nc > y)` (line 132). -/
noncomputable def cover_pred (q : Quantiles) (s : Sample) (nc : ℝ) : ℝ :=
  npMean ((s.xs.zip s.ys).map
    (fun p => if y_pred_nc q s nc p.1 > p.2 then (1 : ℝ) else 0))

/-- `cover_tol = np.mean(y_tol_nc > y)` (line 133). -/
noncomputable def cover_tol (q : Quantiles) (s : Sample) (nc cobertura : ℝ) : ℝ :=
  npMean ((s.xs.zip s.ys).map
    (fun p => if y_tol_nc q s nc cobertura p.1 > p.2 then (1 : ℝ) else 0))

/-- `nc_equation_aprox = (intercept + se_x_aprox, slope)` (line 144): the
approximate safety line is formed directly, with no polynomial refit. -/
noncomputable def nc_equation_aprox (q : Quantiles) (s : Sample) (nc : ℝ) : ℝ × ℝ :=
  (s.intercept + se_x_aprox q s nc, s.slope)

/-- The nudge at lines 70-71: `if nc == 0.5: nc = 0.500001`. -/
noncomputable def adjustNc (nc : ℝ) : ℝ := if nc = 0.5 then 0.500001 else nc

/-- The `nc`-dependent outputs of `ppv_regress`: the three bound curves as
functions of the coordinate (they are evaluated both at the sample `x` and
at the grid `x_grid`), the three coverage diagnostics, and the approximate
safety line.  The degree-2 `np.polyfit` coefficients returned by the script
are deterministic functions of the grid and of `yPredNc`/`yTolNc` on it, so
equality of this record implies equality of the script's full return
value. -/
structure PipelineOut where
  yPredNcAprox : ℝ → ℝ
  yPredNc : ℝ → ℝ
  yTolNc : ℝ → ℝ
  coverAprox : ℝ
  coverPred : ℝ
  coverTol : ℝ
  ncEquationAprox : ℝ × ℝ

/-- The body of `ppv_regress` after the `nc` nudge, collected into a
`PipelineOut`. -/
noncomputable def runCore (q : Quantiles) (s : Sample) (nc cobertura : ℝ) : PipelineOut where
  yPredNcAprox := fun x0 => y_pred_nc_aprox q s nc x0
  yPredNc := fun x0 => y_pred_nc q s nc x0
  yTolNc := fun x0 => y_tol_nc q s nc cobertura x0
  coverAprox := cover_aprox q s nc
  coverPred := cover_pred q s nc
  coverTol := cover_tol q s nc cobertura
  ncEquationAprox := nc_equation_aprox q s nc

/-- `ppv_regress` on an already-loaded sample: the nudge at lines 70-71
followed by the computation. -/
noncomputable def ppv_regress (q : Quantiles) (s : Sample) (nc cobertura : ℝ) : PipelineOut :=
  runCore q s (adjustNc nc) cobertura

/-- The data frame produced by `pd.read_csv`: column names plus the two
columns the script extracts. -/
structure CsvFrame where
  cols : List String
  xcol : List ℝ
  ycol : List ℝ

/-- The input-reading stage of `ppv_regress` (lines 73-86): `none` as the
argument models `FileNotFoundError` from `pd.read_csv`; a frame without
both an `x` and a `y` column raises `ValueError`, which the function
catches, prints, and turns into a bare `return` (that is, `None`).
Otherwise the pipeline runs on the two columns. -/
noncomputable def ppv_regress_file (q : Quantiles) (file : Option CsvFrame)
    (nc cobertura : ℝ) : Option PipelineOut :=
  match file with
  | none => none
  | some df =>
      if "x" ∈ df.cols ∧ "y" ∈ df.cols then
        some (ppv_regress q ⟨df.xcol, df.ycol⟩ nc cobertura)
      else none

/-- `logppv = np.log10(ppvumbral)` (line 205). -/
noncomputable def logppv_of (ppvumbral : ℝ) : ℝ := Real.logb 10 ppvumbral

/-- The root formula `(-b - np.sqrt(b*b - 4*a*c)) / (2*a)` used at lines 210
and 225 of `cargas_sd` (its comment calls it the smaller root), where `c`
already has `logppv` subtracted. -/
noncomputable def raiz_menor (a b c : ℝ) : ℝ :=
  (-b - Real.sqrt (b * b - 4 * a * c)) / (2 * a)

/-- `logsd_pred` (line 210): the quadratic prediction-interval model
`(a, b, c)` is inverted at `logppv` by the root formula. -/
noncomputable def logsd_pred (eq_pred : ℝ × ℝ × ℝ) (ppvumbral : ℝ) : ℝ :=
  raiz_menor eq_pred.1 eq_pred.2.1 (eq_pred.2.2 - logppv_of ppvumbral)

/-- `logsd_tol` (line 225): the same inversion for the tolerance model. -/
noncomputable def logsd_tol (eq_tol : ℝ × ℝ × ℝ) (ppvumbral : ℝ) : ℝ :=
  raiz_menor eq_tol.1 eq_tol.2.1 (eq_tol.2.2 - logppv_of ppvumbral)

/-- `sd = 10**logsd` (lines 211, 217, 226). -/
noncomputable def sd_of (logsd : ℝ) : ℝ := (10 : ℝ) ^ logsd

/-- One entry of `np.power(d_grid / sd, 1 / beta)` (lines 213, 218, 228):
the charge at distance `d` for inverted scaled distance `sd`. -/
noncomputable def carga (d sd beta : ℝ) : ℝ := (d / sd) ^ (1 / beta)

/-- `logsd_aprox = (-nc_equation_aprox[0] + logppv) / nc_equation_aprox[1]`
(line 216): direct inversion of the approximate line. -/
noncomputable def logsd_aprox (eq_aprox : ℝ × ℝ) (ppvumbral : ℝ) : ℝ :=
  (-eq_aprox.1 + logppv_of ppvumbral) / eq_aprox.2

/-- A concrete quantile oracle, used to instantiate witnesses. -/
def q0 : Quantiles where
  normPpf := fun _ => 0
  tPpf := fun _ _ => 0
  nctdtrit := fun _ _ _ => 0

/-- A concrete well-formed sample with `n = 3` and `ss = 2`. -/
def sample0 : Sample where
  xs := [0, 1, 2]
  ys := [0, 1, 0]

/-- A degenerate sample with only `n = 2` points. -/
def sample_n2 : Sample where
  xs := [0, 1]
  ys := [0, 1]

/-- A degenerate sample whose `x` values are all identical (`ss = 0`). -/
def sample_ss0 : Sample where
  xs := [1, 1, 1]
  ys := [0, 1, 2]

/-- Sum of a 0/1 indicator list equals the count of elements satisfying the
predicate, as a real number. -/
theorem sum_indicator_eq_countP {α : Type} (l : List α) (p : α → Prop) [DecidablePred p] :
    (l.map (fun a => if p a then (1 : ℝ) else 0)).sum =
      (l.countP (fun a => decide (p a)) : ℝ) := by
  induction l with
  | nil => simp
  | cons a t ih =>
      by_cases h : p a <;> simp [List.countP_cons, h, ih, add_comm]

/-- C1: for a sample with `n ≥ 3` and `ss > 0` and any coordinate `x0`, the
prediction-interval upper bound equals
`intercept + slope·x0 + t⁻¹(nc; n-2) · mse · sqrt(1 + 1/n + (x0-x̄)²/ss)`. -/
theorem c1_prediction_interval_formula (q : Quantiles) (s : Sample) (nc x0 : ℝ)
    (hn : 3 ≤ s.n) (hss : 0 < s.ss) :
    y_pred_nc q s nc x0 =
      s.intercept + s.slope * x0 +
        q.tPpf nc ((s.n : ℝ) - 2) * s.mse *
          Real.sqrt (1 + 1 / (s.n : ℝ) + (x0 - s.x_mean) ^ 2 / s.ss) := by
  unfold y_pred_nc se_x y_predict
  ring

/-- Witness for C1 at the concrete sample `sample0` and coordinate `0`. -/
theorem c1_witness :
    3 ≤ sample0.n ∧ 0 < sample0.ss ∧
      y_pred_nc q0 sample0 0.9 0 =
        sample0.intercept + sample0.slope * 0 +
          q0.tPpf 0.9 ((sample0.n : ℝ) - 2) * sample0.mse *
            Real.sqrt (1 + 1 / (sample0.n : ℝ) + (0 - sample0.x_mean) ^ 2 / sample0.ss) := by
  have hn : 3 ≤ sample0.n := by norm_num [sample0, Sample.n]
  have hss : 0 < sample0.ss := by norm_num [sample0, Sample.ss, Sample.x_mean, npMean]
  exact ⟨hn, hss, c1_prediction_interval_formula q0 sample0 0.9 0 hn hss⟩

/-- C2: for a sample with `n ≥ 3` and `ss > 0` and any coordinate `x0`, the
tolerance-interval upper bound equals
`intercept + slope·x0 + k(x0) · mse · tol_factor(x0)` with
`tol_factor(x0) = sqrt(1/n + (x0-x̄)²/ss)` and `k(x0)` the quantile-`nc`
inverse of the noncentral-t CDF with `n-2` degrees of freedom and
noncentrality `Φ⁻¹(coverage)/tol_factor(x0)`. -/
theorem c2_tolerance_interval_formula (q : Quantiles) (s : Sample) (nc cobertura x0 : ℝ)
    (hn : 3 ≤ s.n) (hss : 0 < s.ss) :
    y_tol_nc q s nc cobertura x0 =
      s.intercept + s.slope * x0 +
        q.nctdtrit ((s.n : ℝ) - 2)
            (q.normPpf cobertura /
              Real.sqrt (1 / (s.n : ℝ) + (x0 - s.x_mean) ^ 2 / s.ss)) nc *
          s.mse * Real.sqrt (1 / (s.n : ℝ) + (x0 - s.x_mean) ^ 2 / s.ss) := by
  unfold y_tol_nc se_x_tol zp_d x_tol y_predict
  ring

/-- Witness for C2 at the concrete sample `sample0` and coordinate `1`. -/
theorem c2_witness :
    3 ≤ sample0.n ∧ 0 < sample0.ss ∧
      y_tol_nc q0 sample0 0.9 0.95 1 =
        sample0.intercept + sample0.slope * 1 +
          q0.nctdtrit ((sample0.n : ℝ) - 2)
              (q0.normPpf 0.95 /
                Real.sqrt (1 / (sample0.n : ℝ) + (1 - sample0.x_mean) ^ 2 / sample0.ss)) 0.9 *
            sample0.mse *
            Real.sqrt (1 / (sample0.n : ℝ) + (1 - sample0.x_mean) ^ 2 / sample0.ss) := by
  have hn : 3 ≤ sample0.n := by norm_num [sample0, Sample.n]
  have hss : 0 < sample0.ss := by norm_num [sample0, Sample.ss, Sample.x_mean, npMean]
  exact ⟨hn, hss, c2_tolerance_interval_formula q0 sample0 0.9 0.95 1 hn hss⟩

/-- C9: the approximate offset equals `Φ⁻¹(nc)·mse` (scipy's
`st.norm.ppf(nc, loc=0, scale=mse)` under the location-scale convention),
the approximate bound at every coordinate is the line shifted by that same
constant, and the returned approximate model is exactly
`(intercept + offset, slope)`, with no polynomial refit. -/
theorem c9_aprox_constant_offset (q : Quantiles) (s : Sample) (nc : ℝ) :
    se_x_aprox q s nc = q.normPpf nc * s.mse ∧
      (∀ x0 : ℝ, y_pred_nc_aprox q s nc x0 =
        s.intercept + s.slope * x0 + q.normPpf nc * s.mse) ∧
      nc_equation_aprox q s nc = (s.intercept + q.normPpf nc * s.mse, s.slope) := by
  refine ⟨?_, fun x0 => ?_, ?_⟩
  · unfold se_x_aprox Quantiles.normPpfLS
    ring
  · unfold y_pred_nc_aprox se_x_aprox Quantiles.normPpfLS y_predict
    ring
  · unfold nc_equation_aprox se_x_aprox Quantiles.normPpfLS
    congr 1
    ring

/-- C7: calling the pipeline with `nc = 0.5` produces exactly the same
outputs as calling it with `nc = 0.500001`, because of the nudge at lines
70-71 of the source. -/
theorem c7_nc_half_equivalence (q : Quantiles) (s : Sample) (cobertura : ℝ) :
    ppv_regress q s 0.5 cobertura = ppv_regress q s 0.500001 cobertura := by
  unfold ppv_regress
  have h1 : adjustNc (0.5 : ℝ) = 0.500001 := by
    unfold adjustNc
    rw [if_pos rfl]
  have h2 : adjustNc (0.500001 : ℝ) = 0.500001 := by
    unfold adjustNc
    rw [if_neg (by norm_num)]
  rw [h1, h2]

/-- C10: a missing file (modelled by `none`) or a frame lacking an `x` or a
`y` column makes `ppv_regress` return `None` rather than let the error
escape. -/
theorem c10_invalid_input_returns_none (q : Quantiles) (file : Option CsvFrame)
    (nc cobertura : ℝ)
    (h : file = none ∨
      ∃ df : CsvFrame, file = some df ∧ ("x" ∉ df.cols ∨ "y" ∉ df.cols)) :
    ppv_regress_file q file nc cobertura = none := by
  rcases h with rfl | ⟨df, rfl, hcols⟩
  · rfl
  · have hno : ¬("x" ∈ df.cols ∧ "y" ∈ df.cols) := by tauto
    simp [ppv_regress_file, hno]

/-- Witness for C10: the missing-file case at concrete arguments. -/
theorem c10_witness : ppv_regress_file q0 none 0.9 0.95 = none :=
  c10_invalid_input_returns_none q0 none 0.9 0.95 (Or.inl rfl)

/-- C8: for a sample whose two columns have equal length, each of the three
coverage diagnostics equals the fraction of sample `y`-values strictly
below the corresponding upper bound evaluated at the sample
`x`-coordinates. -/
theorem c8_coverage_fraction (q : Quantiles) (s : Sample) (nc cobertura : ℝ)
    (hlen : s.ys.length = s.xs.length) :
    cover_aprox q s nc =
        ((s.xs.zip s.ys).countP
            (fun p => decide (p.2 < y_pred_nc_aprox q s nc p.1)) : ℝ) / (s.n : ℝ) ∧
      cover_pred q s nc =
        ((s.xs.zip s.ys).countP
            (fun p => decide (p.2 < y_pred_nc q s nc p.1)) : ℝ) / (s.n : ℝ) ∧
      cover_tol q s nc cobertura =
        ((s.xs.zip s.ys).countP
            (fun p => decide (p.2 < y_tol_nc q s nc cobertura p.1)) : ℝ) / (s.n : ℝ) := by
  have hzip : (s.xs.zip s.ys).length = s.n := by
    rw [List.length_zip, hlen, Sample.n, min_self]
  refine ⟨?_, ?_, ?_⟩
  · unfold cover_aprox npMean
    rw [sum_indicator_eq_countP, List.length_map, hzip]
  · unfold cover_pred npMean
    rw [sum_indicator_eq_countP, List.length_map, hzip]
  · unfold cover_tol npMean
    rw [sum_indicator_eq_countP, List.length_map, hzip]

/-- Witness for C8 at the concrete sample `sample0`. -/
theorem c8_witness :
    sample0.ys.length = sample0.xs.length ∧
      (cover_aprox q0 sample0 0.9 =
          ((sample0.xs.zip sample0.ys).countP
              (fun p => decide (p.2 < y_pred_nc_aprox q0 sample0 0.9 p.1)) : ℝ) /
            (sample0.n : ℝ) ∧
        cover_pred q0 sample0 0.9 =
          ((sample0.xs.zip sample0.ys).countP
              (fun p => decide (p.2 < y_pred_nc q0 sample0 0.9 p.1)) : ℝ) /
            (sample0.n : ℝ) ∧
        cover_tol q0 sample0 0.9 0.95 =
          ((sample0.xs.zip sample0.ys).countP
              (fun p => decide (p.2 < y_tol_nc q0 sample0 0.9 0.95 p.1)) : ℝ) /
            (sample0.n : ℝ)) :=
  ⟨rfl, c8_coverage_fraction q0 sample0 0.9 0.95 rfl⟩

/-- C3 evidence: the code has no degenerate-model guard.  For the two-point
sample the divisor `n - 2` in the `mse` formula is `0` and the computation
still yields a value (in the real-number embedding, division by zero gives
the junk value `0`, so `mse = sqrt 0 = 0`; numpy emits a NaN with only a
runtime warning).  For the constant-`x` sample, `ss = 0` and the tolerance
factor is still computed, the division `(x0 - x̄)²/ss` silently collapsing
instead of raising a `DegenerateModel` error. -/
theorem c3_no_degenerate_guard :
    (((sample_n2.n : ℝ) - 2 = 0) ∧ sample_n2.mse = 0) ∧
      (sample_ss0.ss = 0 ∧
        ∀ x0 : ℝ, x_tol sample_ss0 x0 = Real.sqrt (1 / 3)) := by
  have hn2 : ((sample_n2.n : ℝ) - 2) = 0 := by
    norm_num [sample_n2, Sample.n]
  have hss0 : sample_ss0.ss = 0 := by
    norm_num [sample_ss0, Sample.ss, Sample.x_mean, npMean]
  refine ⟨⟨hn2, ?_⟩, hss0, fun x0 => ?_⟩
  · unfold Sample.mse
    rw [hn2, div_zero, Real.sqrt_zero]
  · unfold x_tol
    rw [hss0, div_zero, add_zero]
    norm_num [sample_ss0, Sample.n]

/-- C4 counterexample: for the quadratic model `(-1, 0, 4)` and threshold
`ppvumbral = 1` (so `logppv = 0`), the quadratic `-s² + 4 = 0` has the two
roots `-2` and `2`; the root formula of `cargas_sd` returns `2`, which is
not the smaller root.  The claim's quantification over every `a ≠ 0`
therefore fails: the formula picks the smaller root only when `a > 0`. -/
theorem c4_counterexample :
    logsd_pred (-1, 0, 4) 1 = 2 ∧
      (-1 : ℝ) * (-2) ^ 2 + 0 * (-2) + (4 - logppv_of 1) = 0 ∧
      (-1 : ℝ) * 2 ^ 2 + 0 * 2 + (4 - logppv_of 1) = 0 ∧
      ¬((2 : ℝ) ≤ -2) := by
  have hl : logppv_of 1 = 0 := by simp [logppv_of]
  refine ⟨?_, by rw [hl]; norm_num, by rw [hl]; norm_num, by norm_num⟩
  show raiz_menor (-1) 0 (4 - logppv_of 1) = 2
  unfold raiz_menor
  rw [hl]
  rw [show (0 * 0 - 4 * (-1) * ((4 : ℝ) - 0)) = 4 ^ 2 by norm_num,
    Real.sqrt_sq (by norm_num)]
  norm_num

/-- C4 amended: when the leading coefficient is positive and the
discriminant is nonnegative, the value computed by the root formula of
`cargas_sd` is a root of `a·s² + b·s + (c - logppv) = 0` and is the
smaller one: it is below every root.  The same formula, hence the same
fact, applies to the prediction model (`logsd_pred`) and to the tolerance
model (`logsd_tol`). -/
theorem c4_smaller_root_selected (a b c logppv : ℝ) (ha : 0 < a)
    (hd : 0 ≤ b * b - 4 * a * (c - logppv)) :
    a * raiz_menor a b (c - logppv) ^ 2 + b * raiz_menor a b (c - logppv) +
        (c - logppv) = 0 ∧
      ∀ t : ℝ, a * t ^ 2 + b * t + (c - logppv) = 0 →
        raiz_menor a b (c - logppv) ≤ t := by
  have hs : Real.sqrt (b * b - 4 * a * (c - logppv)) ^ 2 =
      b * b - 4 * a * (c - logppv) := Real.sq_sqrt hd
  have hsnn : 0 ≤ Real.sqrt (b * b - 4 * a * (c - logppv)) := Real.sqrt_nonneg _
  have h2a : (0 : ℝ) < 2 * a := by linarith
  constructor
  · unfold raiz_menor
    field_simp
    nlinarith [hs]
  · intro t ht
    have key : (2 * a * t + b) ^ 2 =
        Real.sqrt (b * b - 4 * a * (c - logppv)) ^ 2 := by
      rw [hs]
      nlinarith [ht]
    have hfac : (2 * a * t + b - Real.sqrt (b * b - 4 * a * (c - logppv))) *
        (2 * a * t + b + Real.sqrt (b * b - 4 * a * (c - logppv))) = 0 := by
      nlinarith [key]
    unfold raiz_menor
    rw [div_le_iff h2a]
    rcases mul_eq_zero.mp hfac with h | h
    · nlinarith [hsnn]
    · nlinarith

/-- Witness for C4 amended at `a = 1`, `b = 0`, `c = -4`, `logppv = 0`
(discriminant `16`). -/
theorem c4_witness :
    (0 : ℝ) < 1 ∧ (0 : ℝ) ≤ 0 * 0 - 4 * 1 * ((-4) - 0) ∧
      (1 * raiz_menor 1 0 ((-4 : ℝ) - 0) ^ 2 + 0 * raiz_menor 1 0 ((-4 : ℝ) - 0) +
          ((-4 : ℝ) - 0) = 0 ∧
        ∀ t : ℝ, 1 * t ^ 2 + 0 * t + ((-4 : ℝ) - 0) = 0 →
          raiz_menor 1 0 ((-4 : ℝ) - 0) ≤ t) :=
  ⟨by norm_num, by norm_num,
    c4_smaller_root_selected 1 0 (-4) 0 (by norm_num) (by norm_num)⟩

/-- C5 evidence: for the quadratic model `(1, 0, 1)` and threshold
`ppvumbral = 1` the discriminant is `-4 < 0`, yet the code computes
`np.sqrt` of it anyway (NaN plus a runtime warning in numpy, the junk
value `0` in this real-number embedding) and flows on to numeric output:
no `NoFeasibleSolution` error exists anywhere in `cargas_sd`. -/
theorem c5_negative_discriminant_not_reported :
    (0 * 0 - 4 * 1 * ((1 : ℝ) - logppv_of 1) < 0) ∧ logsd_pred (1, 0, 1) 1 = 0 := by
  have hl : logppv_of 1 = 0 := by simp [logppv_of]
  constructor
  · rw [hl]
    norm_num
  · show raiz_menor 1 0 (1 - logppv_of 1) = 0
    unfold raiz_menor
    rw [hl]
    rw [Real.sqrt_eq_zero_of_nonpos (by norm_num)]
    norm_num

/-- C6: for fixed `beta > 0` and inverted scaled distance `sd > 0`, the
charge `Q(D) = (D / sd)^(1/beta)` computed by `cargas_sd` is strictly
increasing in the distance `D` over positive distances. -/
theorem c6_charge_strictly_increasing (beta sd d1 d2 : ℝ)
    (hb : 0 < beta) (hsd : 0 < sd) (hd1 : 0 < d1) (h12 : d1 < d2) :
    carga d1 sd beta < carga d2 sd beta := by
  unfold carga
  refine Real.rpow_lt_rpow (div_nonneg hd1.le hsd.le) ?_ (by positivity)
  gcongr

/-- Witness for C6 at `beta = 1`, `sd = 1`, `d1 = 1`, `d2 = 2`. -/
theorem c6_witness :
    (0 : ℝ) < 1 ∧ (1 : ℝ) < 2 ∧ carga 1 1 1 < carga 2 1 1 :=
  ⟨by norm_num, by norm_num,
    c6_charge_strictly_increasing 1 1 1 2 (by norm_num) (by norm_num) (by norm_num)
      (by norm_num)⟩

end PpvLaw
